import Mathlib

/-!
Shallow embedding of the `gonc` NetCDF-classic header reader
(package `gonc`, file `netcdf.go`: `Open`, `readU32`, `readString`,
`readDimList`, `readAttrList`, `readVarList`).

The byte source (`*os.File` read sequentially) is modelled as the list of
bytes remaining at the cursor (`Src`).  A Go `f.Read(buf)` into a buffer of
`n` bytes is modelled by `fRead`: at end of input with `n > 0` it fails
(`io.EOF`); otherwise it returns the available bytes, zero-filling the rest
of the buffer (a short read on a regular file returns what is available with
a nil error, and the code discards the returned count).  `f.Seek(pad, 1)`
advances the cursor and cannot fail, also past end of input; it is modelled
as `List.drop`.  Bytes are `Nat` reduced mod 256 at the read boundary.
-/

deriving instance DecidableEq for Except

namespace gonc

/-- Errors returned by the reader: `io.EOF` from a read at end of input,
`errors.New "not a NetCDF file"`, `fmt.Errorf "unsupported NetCDF format: %d"`,
and the three list-tag mismatch errors
(`invalid dim_list tag` / `invalid attr_list tag` / `invalid var_list tag`). -/
inductive Err where
  | eof : Err
  | badMagic : Err
  | unsupportedFormat : Nat → Err
  | invalidDimListTag : Nat → Err
  | invalidAttrListTag : Nat → Err
  | invalidVarListTag : Nat → Err
deriving DecidableEq, Repr

/-- The bytes remaining at the read cursor. -/
abbrev Src := List Nat

/-- `_, err := f.Read(buf)` with `buf := make([]byte, n)`:
nothing to read and `n > 0` gives `io.EOF`; otherwise up to `n` bytes are
taken and the rest of the zero-initialised buffer stays zero. -/
def fRead (s : Src) (n : Nat) : Except Err (List Nat × Src) :=
  if n = 0 then .ok ([], s)
  else if s.isEmpty then .error .eof
  else .ok ((s.take n).map (· % 256) ++ List.replicate (n - s.length) 0, s.drop n)

/-- `binary.BigEndian.Uint32` over a 4-byte buffer. -/
def beU32 (b : List Nat) : Nat :=
  b.getD 0 0 * 16777216 + b.getD 1 0 * 65536 + b.getD 2 0 * 256 + b.getD 3 0

/-- `readU32`: one 4-byte read, big-endian decode. -/
def readU32 (s : Src) : Except Err (Nat × Src) :=
  match fRead s 4 with
  | .error e => .error e
  | .ok (buf, s1) => .ok (beU32 buf, s1)

/-- `pad := (4 - (n % 4)) % 4`, the alignment padding after an
`n`-byte payload. -/
def padOf (n : Nat) : Nat := (4 - n % 4) % 4

/-- `readString`: 4-byte length `n`, `n` payload bytes, then
`f.Seek(pad, 1)` over the padding (a relative seek, which cannot fail). -/
def readString (s : Src) : Except Err (List Nat × Src) :=
  match readU32 s with
  | .error e => .error e
  | .ok (n, s1) =>
    match fRead s1 n with
    | .error e => .error e
    | .ok (buf, s2) => .ok (buf, if padOf n > 0 then s2.drop (padOf n) else s2)

structure Dimension where
  name : List Nat
  length : Nat
deriving DecidableEq, Repr

structure Attr where
  name : List Nat
  atype : Nat
  values : List Nat
deriving DecidableEq, Repr

structure Variable where
  name : List Nat
  dimIDs : List Nat
  dataType : Nat
  vsize : Nat
  offset : Nat
  attrs : List Attr
deriving DecidableEq, Repr

/-- The exported fields of `gonc.File` (the `*os.File` handle is the
cursor, threaded separately). -/
structure File where
  format : Nat
  numRecs : Nat
  dims : List Dimension
  vars : List Variable
deriving DecidableEq, Repr

/-- The body of `readDimList`'s element loop: `nelems` iterations of
`readString` (name) then `readU32` (length). -/
def readDims : Nat → Src → Except Err (List Dimension × Src)
  | 0, s => .ok ([], s)
  | n + 1, s =>
    match readString s with
    | .error e => .error e
    | .ok (name, s1) =>
      match readU32 s1 with
      | .error e => .error e
      | .ok (len, s2) =>
        match readDims n s2 with
        | .error e => .error e
        | .ok (ds, s3) => .ok (⟨name, len⟩ :: ds, s3)

/-- `readDimList`: tag word (0 means absent, 0x0A expected), count, loop. -/
def readDimList (s : Src) : Except Err (List Dimension × Src) :=
  match readU32 s with
  | .error e => .error e
  | .ok (tag, s1) =>
    if tag = 0 then .ok ([], s1)
    else if tag ≠ 10 then .error (.invalidDimListTag tag)
    else
      match readU32 s1 with
      | .error e => .error e
      | .ok (nelems, s2) => readDims nelems s2

/-- One iteration of `readAttrList`'s element loop: name, type, value
byte count, raw value bytes, then the padding skip (`Seek`, error ignored). -/
def readAttr (s : Src) : Except Err (Attr × Src) :=
  match readString s with
  | .error e => .error e
  | .ok (name, s1) =>
    match readU32 s1 with
    | .error e => .error e
    | .ok (atype, s2) =>
      match readU32 s2 with
      | .error e => .error e
      | .ok (nvals, s3) =>
        match fRead s3 nvals with
        | .error e => .error e
        | .ok (buf, s4) =>
          .ok (⟨name, atype, buf⟩, if padOf nvals > 0 then s4.drop (padOf nvals) else s4)

/-- `nelems` iterations of the attribute element loop. -/
def readAttrs : Nat → Src → Except Err (List Attr × Src)
  | 0, s => .ok ([], s)
  | n + 1, s =>
    match readAttr s with
    | .error e => .error e
    | .ok (a, s1) =>
      match readAttrs n s1 with
      | .error e => .error e
      | .ok (as, s2) => .ok (a :: as, s2)

/-- `readAttrList`: tag word (0 means absent, 0x0C expected), count, loop. -/
def readAttrList (s : Src) : Except Err (List Attr × Src) :=
  match readU32 s with
  | .error e => .error e
  | .ok (tag, s1) =>
    if tag = 0 then .ok ([], s1)
    else if tag ≠ 12 then .error (.invalidAttrListTag tag)
    else
      match readU32 s1 with
      | .error e => .error e
      | .ok (nelems, s2) => readAttrs nelems s2

/-- The inner `dimIDs` loop of `readVarList`: `nDims` consecutive `readU32`. -/
def readDimIDs : Nat → Src → Except Err (List Nat × Src)
  | 0, s => .ok ([], s)
  | n + 1, s =>
    match readU32 s with
    | .error e => .error e
    | .ok (d, s1) =>
      match readDimIDs n s1 with
      | .error e => .error e
      | .ok (ds, s2) => .ok (d :: ds, s2)

/-- One iteration of `readVarList`'s element loop: name, nDims, dimIDs,
nested attribute list, type, vsize, then the 4-byte offset. -/
def readVar (s : Src) : Except Err (Variable × Src) :=
  match readString s with
  | .error e => .error e
  | .ok (name, s1) =>
    match readU32 s1 with
    | .error e => .error e
    | .ok (nDims, s2) =>
      match readDimIDs nDims s2 with
      | .error e => .error e
      | .ok (dimIDs, s3) =>
        match readAttrList s3 with
        | .error e => .error e
        | .ok (attrs, s4) =>
          match readU32 s4 with
          | .error e => .error e
          | .ok (dtype, s5) =>
            match readU32 s5 with
            | .error e => .error e
            | .ok (vsize, s6) =>
              match readU32 s6 with
              | .error e => .error e
              | .ok (offset, s7) => .ok (⟨name, dimIDs, dtype, vsize, offset, attrs⟩, s7)

/-- `nelems` iterations of the variable element loop. -/
def readVars : Nat → Src → Except Err (List Variable × Src)
  | 0, s => .ok ([], s)
  | n + 1, s =>
    match readVar s with
    | .error e => .error e
    | .ok (v, s1) =>
      match readVars n s1 with
      | .error e => .error e
      | .ok (vs, s2) => .ok (v :: vs, s2)

/-- `readVarList`: tag word (0 means absent, 0x0B expected), count, loop. -/
def readVarList (s : Src) : Except Err (List Variable × Src) :=
  match readU32 s with
  | .error e => .error e
  | .ok (tag, s1) =>
    if tag = 0 then .ok ([], s1)
    else if tag ≠ 11 then .error (.invalidVarListTag tag)
    else
      match readU32 s1 with
      | .error e => .error e
      | .ok (nelems, s2) => readVars nelems s2

/-- `gonc.Open`, minus the `os.Open` call: 4-byte magic+format read, magic
check, format check, `numrecs`, then `readDimList` and `readVarList`. -/
def Open (input : Src) : Except Err File :=
  match fRead input 4 with
  | .error e => .error e
  | .ok (header, s1) =>
    if header.take 3 ≠ [67, 68, 70] then .error .badMagic
    else
      if header.getD 3 0 ≠ 1 ∧ header.getD 3 0 ≠ 2 then
        .error (.unsupportedFormat (header.getD 3 0))
      else
        match readU32 s1 with
        | .error e => .error e
        | .ok (numrecs, s2) =>
          match readDimList s2 with
          | .error e => .error e
          | .ok (dims, s3) =>
            match readVarList s3 with
            | .error e => .error e
            | .ok (vars, _s4) => .ok ⟨header.getD 3 0, numrecs, dims, vars⟩

/-- The 32-bit big-endian value of the first (up to) four bytes of a buffer,
as `readU32` decodes it. -/
def word (b : List Nat) : Nat := beU32 ((b.take 4).map (· % 256))

theorem fRead_append (a r : List Nat) (n : Nat) (ha : a.length = n) (hn : n ≠ 0) :
    fRead (a ++ r) n = .ok (a.map (· % 256), r) := by
  subst ha
  have hne : (a ++ r).isEmpty = false := by
    cases a with
    | nil => exact absurd rfl hn
    | cons x xs => rfl
  unfold fRead
  rw [if_neg hn, if_neg (by simp [hne])]
  rw [List.take_left, List.drop_left]
  have h0 : a.length - (a ++ r).length = 0 := by
    simp [List.length_append]
  rw [h0]
  simp

theorem beU32_pad (x : List Nat) (k : Nat) :
    beU32 (x ++ List.replicate k 0) = beU32 x := by
  have hg : ∀ i : Nat, (x ++ List.replicate k 0).getD i 0 = x.getD i 0 := by
    intro i
    rcases Nat.lt_or_ge i x.length with h | h
    · simp [List.getD_eq_getElem?_getD, List.getElem?_append_left h]
    · simp [List.getD_eq_getElem?_getD, List.getElem?_append_right h,
        List.getElem?_replicate, List.getElem?_eq_none h]
      split <;> rfl
  unfold beU32
  rw [hg 0, hg 1, hg 2, hg 3]

theorem fRead_cons (x : Nat) (xs : List Nat) (n : Nat) (hn : n ≠ 0) :
    fRead (x :: xs) n =
      .ok (((x :: xs).take n).map (· % 256) ++ List.replicate (n - (x :: xs).length) 0,
        (x :: xs).drop n) := by
  unfold fRead
  rw [if_neg hn]
  rfl

theorem readU32_eq (s : Src) (h : s ≠ []) :
    readU32 s = .ok (word s, s.drop 4) := by
  match s with
  | [] => exact absurd rfl h
  | x :: xs =>
    unfold readU32
    rw [fRead_cons x xs 4 (by decide)]
    exact congrArg (fun v => Except.ok (v, (x :: xs).drop 4)) (beU32_pad _ _)

theorem readU32_append (b4 r : List Nat) (h : b4.length = 4) :
    readU32 (b4 ++ r) = .ok (word b4, r) := by
  unfold readU32
  rw [fRead_append b4 r 4 h (by decide)]
  have hb : beU32 (b4.map (· % 256)) = word b4 := by
    unfold word
    rw [show b4.take 4 = b4 from by rw [← h, List.take_length]]
  exact congrArg (fun v => Except.ok (v, r)) hb

theorem fRead_err_eof (s : Src) (n : Nat) (e : Err) (h : fRead s n = .error e) :
    e = .eof ∧ s = [] ∧ n ≠ 0 := by
  unfold fRead at h
  split at h
  · exact absurd h (by simp)
  · split at h
    · next hn hemp =>
      refine ⟨by injection h with h1; exact h1.symm, ?_, hn⟩
      cases s with
      | nil => rfl
      | cons x xs => exact absurd hemp (by simp)
    · exact absurd h (by simp)

theorem readU32_err_eof (s : Src) (e : Err) (h : readU32 s = .error e) : e = .eof := by
  unfold readU32 at h
  split at h
  · next e1 heq =>
    injection h with h1
    subst h1
    exact (fRead_err_eof _ _ _ heq).1
  · exact absurd h (by simp)

theorem readString_err_eof (s : Src) (e : Err) (h : readString s = .error e) : e = .eof := by
  unfold readString at h
  split at h
  · next e1 heq =>
    injection h with h1
    subst h1
    exact readU32_err_eof _ _ heq
  · next n s1 heq =>
    split at h
    · next e2 heq2 =>
      injection h with h1
      subst h1
      exact (fRead_err_eof _ _ _ heq2).1
    · exact absurd h (by simp)

theorem readDims_err_eof (n : Nat) (s : Src) (e : Err) (h : readDims n s = .error e) :
    e = .eof := by
  induction n generalizing s with
  | zero => exact absurd h (by simp [readDims])
  | succ k ih =>
    unfold readDims at h
    split at h
    · next e1 heq =>
      injection h with h1
      subst h1
      exact readString_err_eof _ _ heq
    · split at h
      · next e1 heq =>
        injection h with h1
        subst h1
        exact readU32_err_eof _ _ heq
      · split at h
        · next e1 heq =>
          injection h with h1
          subst h1
          exact ih _ heq
        · exact absurd h (by simp)

theorem readDimList_err (s : Src) (e : Err) (h : readDimList s = .error e) :
    e = .eof ∨ ∃ t, e = .invalidDimListTag t := by
  unfold readDimList at h
  split at h
  · next e1 heq =>
    injection h with h1
    subst h1
    exact Or.inl (readU32_err_eof _ _ heq)
  · next tag s1 heq =>
    split at h
    · exact absurd h (by simp)
    · split at h
      · injection h with h1
        exact Or.inr ⟨tag, h1.symm⟩
      · split at h
        · next e1 heq2 =>
          injection h with h1
          subst h1
          exact Or.inl (readU32_err_eof _ _ heq2)
        · exact Or.inl (readDims_err_eof _ _ _ h)

theorem readAttr_err_eof (s : Src) (e : Err) (h : readAttr s = .error e) : e = .eof := by
  unfold readAttr at h
  split at h
  · next e1 heq =>
    injection h with h1
    subst h1
    exact readString_err_eof _ _ heq
  · split at h
    · next e1 heq =>
      injection h with h1
      subst h1
      exact readU32_err_eof _ _ heq
    · split at h
      · next e1 heq =>
        injection h with h1
        subst h1
        exact readU32_err_eof _ _ heq
      · split at h
        · next e1 heq =>
          injection h with h1
          subst h1
          exact (fRead_err_eof _ _ _ heq).1
        · exact absurd h (by simp)

theorem readAttrs_err_eof (n : Nat) (s : Src) (e : Err) (h : readAttrs n s = .error e) :
    e = .eof := by
  induction n generalizing s with
  | zero => exact absurd h (by simp [readAttrs])
  | succ k ih =>
    unfold readAttrs at h
    split at h
    · next e1 heq =>
      injection h with h1
      subst h1
      exact readAttr_err_eof _ _ heq
    · split at h
      · next e1 heq =>
        injection h with h1
        subst h1
        exact ih _ heq
      · exact absurd h (by simp)

theorem readAttrList_err (s : Src) (e : Err) (h : readAttrList s = .error e) :
    e = .eof ∨ ∃ t, e = .invalidAttrListTag t := by
  unfold readAttrList at h
  split at h
  · next e1 heq =>
    injection h with h1
    subst h1
    exact Or.inl (readU32_err_eof _ _ heq)
  · next tag s1 heq =>
    split at h
    · exact absurd h (by simp)
    · split at h
      · injection h with h1
        exact Or.inr ⟨tag, h1.symm⟩
      · split at h
        · next e1 heq2 =>
          injection h with h1
          subst h1
          exact Or.inl (readU32_err_eof _ _ heq2)
        · exact Or.inl (readAttrs_err_eof _ _ _ h)

theorem readDimIDs_err_eof (n : Nat) (s : Src) (e : Err) (h : readDimIDs n s = .error e) :
    e = .eof := by
  induction n generalizing s with
  | zero => exact absurd h (by simp [readDimIDs])
  | succ k ih =>
    unfold readDimIDs at h
    split at h
    · next e1 heq =>
      injection h with h1
      subst h1
      exact readU32_err_eof _ _ heq
    · split at h
      · next e1 heq =>
        injection h with h1
        subst h1
        exact ih _ heq
      · exact absurd h (by simp)

theorem readVar_err (s : Src) (e : Err) (h : readVar s = .error e) :
    e = .eof ∨ ∃ t, e = .invalidAttrListTag t := by
  unfold readVar at h
  split at h
  · next e1 heq =>
    injection h with h1
    subst h1
    exact Or.inl (readString_err_eof _ _ heq)
  · split at h
    · next e1 heq =>
      injection h with h1
      subst h1
      exact Or.inl (readU32_err_eof _ _ heq)
    · split at h
      · next e1 heq =>
        injection h with h1
        subst h1
        exact Or.inl (readDimIDs_err_eof _ _ _ heq)
      · split at h
        · next e1 heq =>
          injection h with h1
          subst h1
          exact readAttrList_err _ _ heq
        · split at h
          · next e1 heq =>
            injection h with h1
            subst h1
            exact Or.inl (readU32_err_eof _ _ heq)
          · split at h
            · next e1 heq =>
              injection h with h1
              subst h1
              exact Or.inl (readU32_err_eof _ _ heq)
            · split at h
              · next e1 heq =>
                injection h with h1
                subst h1
                exact Or.inl (readU32_err_eof _ _ heq)
              · exact absurd h (by simp)

theorem readVars_err (n : Nat) (s : Src) (e : Err) (h : readVars n s = .error e) :
    e = .eof ∨ ∃ t, e = .invalidAttrListTag t := by
  induction n generalizing s with
  | zero => exact absurd h (by simp [readVars])
  | succ k ih =>
    unfold readVars at h
    split at h
    · next e1 heq =>
      injection h with h1
      subst h1
      exact readVar_err _ _ heq
    · split at h
      · next e1 heq =>
        injection h with h1
        subst h1
        exact ih _ heq
      · exact absurd h (by simp)

theorem readVarList_err (s : Src) (e : Err) (h : readVarList s = .error e) :
    e = .eof ∨ (∃ t, e = .invalidAttrListTag t) ∨ ∃ t, e = .invalidVarListTag t := by
  unfold readVarList at h
  split at h
  · next e1 heq =>
    injection h with h1
    subst h1
    exact Or.inl (readU32_err_eof _ _ heq)
  · next tag s1 heq =>
    split at h
    · exact absurd h (by simp)
    · split at h
      · injection h with h1
        exact Or.inr (Or.inr ⟨tag, h1.symm⟩)
      · split at h
        · next e1 heq2 =>
          injection h with h1
          subst h1
          exact Or.inl (readU32_err_eof _ _ heq2)
        · rcases readVars_err _ _ _ h with h1 | h1
          · exact Or.inl h1
          · exact Or.inr (Or.inl h1)

theorem fRead_zero (s : Src) : fRead s 0 = .ok ([], s) := by
  unfold fRead
  rw [if_pos rfl]

theorem readString_append (b4 payload padb rest : List Nat) (h4 : b4.length = 4)
    (hp : payload.length = word b4) (hpad : padb.length = padOf (word b4)) :
    readString (b4 ++ (payload ++ (padb ++ rest))) = .ok (payload.map (· % 256), rest) := by
  unfold readString
  by_cases h0 : word b4 = 0
  · rw [h0] at hp hpad
    have hp0 : payload = [] := List.eq_nil_of_length_eq_zero hp
    have hpad0 : padb = [] := List.eq_nil_of_length_eq_zero (by simpa [padOf] using hpad)
    subst hp0
    subst hpad0
    simp only [List.nil_append, readU32_append b4 rest h4, h0, fRead_zero]
    simp [padOf]
  · simp only [readU32_append b4 (payload ++ (padb ++ rest)) h4,
      fRead_append payload (padb ++ rest) (word b4) hp h0]
    by_cases hgt : padOf (word b4) > 0
    · simp only [if_pos hgt, List.drop_left' hpad]
    · have hz : padOf (word b4) = 0 := by omega
      have hpad0 : padb = [] := List.eq_nil_of_length_eq_zero (by rw [hpad, hz])
      subst hpad0
      simp only [if_neg hgt, List.nil_append]

theorem readAttr_append (nm4 nmB nmP t4 c4 vals padb rest : List Nat)
    (h4 : nm4.length = 4) (hnm : nmB.length = word nm4) (hnp : nmP.length = padOf (word nm4))
    (ht : t4.length = 4) (hc : c4.length = 4) (hv : vals.length = word c4)
    (hpb : padb.length = padOf (word c4)) :
    readAttr (nm4 ++ (nmB ++ (nmP ++ (t4 ++ (c4 ++ (vals ++ (padb ++ rest))))))) =
      .ok (⟨nmB.map (· % 256), word t4, vals.map (· % 256)⟩, rest) := by
  unfold readAttr
  by_cases h0 : word c4 = 0
  · rw [h0] at hv hpb
    have hv0 : vals = [] := List.eq_nil_of_length_eq_zero hv
    have hp0 : padb = [] := List.eq_nil_of_length_eq_zero (by simpa [padOf] using hpb)
    subst hv0
    subst hp0
    simp only [List.nil_append, readString_append nm4 nmB nmP _ h4 hnm hnp,
      readU32_append t4 _ ht, readU32_append c4 rest hc, h0, fRead_zero]
    simp [padOf]
  · simp only [readString_append nm4 nmB nmP _ h4 hnm hnp,
      readU32_append t4 _ ht, readU32_append c4 _ hc,
      fRead_append vals (padb ++ rest) (word c4) hv h0]
    by_cases hgt : padOf (word c4) > 0
    · simp only [if_pos hgt, List.drop_left' hpb]
    · have hz : padOf (word c4) = 0 := by omega
      have hp0 : padb = [] := List.eq_nil_of_length_eq_zero (by rw [hpb, hz])
      subst hp0
      simp only [if_neg hgt, List.nil_append]

theorem Open_cons (a b c d : Nat) (t : Src) :
    Open (a :: b :: c :: d :: t) =
      if [a % 256, b % 256, c % 256] ≠ [67, 68, 70] then .error .badMagic
      else if d % 256 ≠ 1 ∧ d % 256 ≠ 2 then .error (.unsupportedFormat (d % 256))
      else
        match readU32 t with
        | .error e => .error e
        | .ok (numrecs, s2) =>
          match readDimList s2 with
          | .error e => .error e
          | .ok (dims, s3) =>
            match readVarList s3 with
            | .error e => .error e
            | .ok (vars, _s4) => .ok ⟨d % 256, numrecs, dims, vars⟩ := by
  unfold Open
  rw [show (a :: b :: c :: d :: t) = [a, b, c, d] ++ t from rfl,
    fRead_append [a, b, c, d] t 4 rfl (by decide)]
  rfl

/-! Staging combinators: each names one step of a reader's match chain, so that
intermediate results can be rewritten in syntactically, one read at a time. -/

def strS2 (r : Except Err (List Nat × Src)) (n : Nat) : Except Err (List Nat × Src) :=
  match r with
  | .error e => .error e
  | .ok (buf, s2) => .ok (buf, if padOf n > 0 then s2.drop (padOf n) else s2)

def strS1 (r : Except Err (Nat × Src)) : Except Err (List Nat × Src) :=
  match r with
  | .error e => .error e
  | .ok (n, s1) => strS2 (fRead s1 n) n

theorem readString_staged (s : Src) : readString s = strS1 (readU32 s) := by
  unfold readString strS1 strS2
  rfl

theorem strS1_err (e : Err) : strS1 (.error e) = .error e := rfl

theorem strS1_ok (n : Nat) (s1 : Src) : strS1 (.ok (n, s1)) = strS2 (fRead s1 n) n := rfl

theorem strS2_err (e : Err) (n : Nat) : strS2 (.error e) n = .error e := rfl

theorem strS2_ok (buf : List Nat) (s2 : Src) (n : Nat) :
    strS2 (.ok (buf, s2)) n = .ok (buf, if padOf n > 0 then s2.drop (padOf n) else s2) := rfl

def dimsTagged (r : Except Err (Nat × Src)) : Except Err (List Dimension × Src) :=
  match r with
  | .error e => .error e
  | .ok (nelems, s2) => readDims nelems s2

def attrsTagged (r : Except Err (Nat × Src)) : Except Err (List Attr × Src) :=
  match r with
  | .error e => .error e
  | .ok (nelems, s2) => readAttrs nelems s2

def varsTagged (r : Except Err (Nat × Src)) : Except Err (List Variable × Src) :=
  match r with
  | .error e => .error e
  | .ok (nelems, s2) => readVars nelems s2

theorem dimsTagged_err (e : Err) : dimsTagged (.error e) = .error e := rfl

theorem dimsTagged_ok (n : Nat) (s : Src) : dimsTagged (.ok (n, s)) = readDims n s := rfl

theorem attrsTagged_err (e : Err) : attrsTagged (.error e) = .error e := rfl

theorem attrsTagged_ok (n : Nat) (s : Src) : attrsTagged (.ok (n, s)) = readAttrs n s := rfl

theorem varsTagged_err (e : Err) : varsTagged (.error e) = .error e := rfl

theorem varsTagged_ok (n : Nat) (s : Src) : varsTagged (.ok (n, s)) = readVars n s := rfl

def varS7 (r : Except Err (Nat × Src)) (name : List Nat) (ids : List Nat)
    (attrs : List Attr) (ty vs : Nat) : Except Err (Variable × Src) :=
  match r with
  | .error e => .error e
  | .ok (off, s7) => .ok (⟨name, ids, ty, vs, off, attrs⟩, s7)

def varS6 (r : Except Err (Nat × Src)) (name : List Nat) (ids : List Nat)
    (attrs : List Attr) (ty : Nat) : Except Err (Variable × Src) :=
  match r with
  | .error e => .error e
  | .ok (vs, s6) => varS7 (readU32 s6) name ids attrs ty vs

def varS5 (r : Except Err (Nat × Src)) (name : List Nat) (ids : List Nat)
    (attrs : List Attr) : Except Err (Variable × Src) :=
  match r with
  | .error e => .error e
  | .ok (ty, s5) => varS6 (readU32 s5) name ids attrs ty

def varS4 (r : Except Err (List Attr × Src)) (name : List Nat) (ids : List Nat) :
    Except Err (Variable × Src) :=
  match r with
  | .error e => .error e
  | .ok (attrs, s4) => varS5 (readU32 s4) name ids attrs

def varS3 (r : Except Err (List Nat × Src)) (name : List Nat) :
    Except Err (Variable × Src) :=
  match r with
  | .error e => .error e
  | .ok (ids, s3) => varS4 (readAttrList s3) name ids

def varS2 (r : Except Err (Nat × Src)) (name : List Nat) :
    Except Err (Variable × Src) :=
  match r with
  | .error e => .error e
  | .ok (nD, s2) => varS3 (readDimIDs nD s2) name

def varS1 (r : Except Err (List Nat × Src)) : Except Err (Variable × Src) :=
  match r with
  | .error e => .error e
  | .ok (name, s1) => varS2 (readU32 s1) name

theorem readVar_staged (s : Src) : readVar s = varS1 (readString s) := by
  unfold readVar varS1 varS2 varS3 varS4 varS5 varS6 varS7
  rfl

theorem varS1_err (e : Err) : varS1 (.error e) = .error e := rfl

theorem varS1_ok (name : List Nat) (s1 : Src) :
    varS1 (.ok (name, s1)) = varS2 (readU32 s1) name := rfl

theorem varS2_err (e : Err) (name : List Nat) : varS2 (.error e) name = .error e := rfl

theorem varS2_ok (nD : Nat) (s2 : Src) (name : List Nat) :
    varS2 (.ok (nD, s2)) name = varS3 (readDimIDs nD s2) name := rfl

theorem varS3_err (e : Err) (name : List Nat) : varS3 (.error e) name = .error e := rfl

theorem varS3_ok (ids : List Nat) (s3 : Src) (name : List Nat) :
    varS3 (.ok (ids, s3)) name = varS4 (readAttrList s3) name ids := rfl

theorem varS4_err (e : Err) (name ids : List Nat) : varS4 (.error e) name ids = .error e := rfl

theorem varS4_ok (attrs : List Attr) (s4 : Src) (name ids : List Nat) :
    varS4 (.ok (attrs, s4)) name ids = varS5 (readU32 s4) name ids attrs := rfl

theorem varS5_err (e : Err) (name ids : List Nat) (attrs : List Attr) :
    varS5 (.error e) name ids attrs = .error e := rfl

theorem varS5_ok (ty : Nat) (s5 : Src) (name ids : List Nat) (attrs : List Attr) :
    varS5 (.ok (ty, s5)) name ids attrs = varS6 (readU32 s5) name ids attrs ty := rfl

theorem varS6_err (e : Err) (name ids : List Nat) (attrs : List Attr) (ty : Nat) :
    varS6 (.error e) name ids attrs ty = .error e := rfl

theorem varS6_ok (vs : Nat) (s6 : Src) (name ids : List Nat) (attrs : List Attr) (ty : Nat) :
    varS6 (.ok (vs, s6)) name ids attrs ty = varS7 (readU32 s6) name ids attrs ty vs := rfl

theorem varS7_err (e : Err) (name ids : List Nat) (attrs : List Attr) (ty vs : Nat) :
    varS7 (.error e) name ids attrs ty vs = .error e := rfl

theorem varS7_ok (off : Nat) (s7 : Src) (name ids : List Nat) (attrs : List Attr) (ty vs : Nat) :
    varS7 (.ok (off, s7)) name ids attrs ty vs = .ok (⟨name, ids, ty, vs, off, attrs⟩, s7) := rfl

def openFinish (r : Except Err (List Variable × Src)) (fmt n : Nat) (dims : List Dimension) :
    Except Err File :=
  match r with
  | .error e => .error e
  | .ok (vars, _s4) => .ok ⟨fmt, n, dims, vars⟩

def openVars (r : Except Err (List Dimension × Src)) (fmt n : Nat) : Except Err File :=
  match r with
  | .error e => .error e
  | .ok (dims, s3) => openFinish (readVarList s3) fmt n dims

def openDims (r : Except Err (Nat × Src)) (fmt : Nat) : Except Err File :=
  match r with
  | .error e => .error e
  | .ok (n, s2) => openVars (readDimList s2) fmt n

theorem openDims_err (e : Err) (fmt : Nat) : openDims (.error e) fmt = .error e := rfl

theorem openDims_ok (n : Nat) (s2 : Src) (fmt : Nat) :
    openDims (.ok (n, s2)) fmt = openVars (readDimList s2) fmt n := rfl

theorem openVars_err (e : Err) (fmt n : Nat) : openVars (.error e) fmt n = .error e := rfl

theorem openVars_ok (dims : List Dimension) (s3 : Src) (fmt n : Nat) :
    openVars (.ok (dims, s3)) fmt n = openFinish (readVarList s3) fmt n dims := rfl

theorem openFinish_err (e : Err) (fmt n : Nat) (dims : List Dimension) :
    openFinish (.error e) fmt n dims = .error e := rfl

theorem openFinish_ok (vars : List Variable) (s4 : Src) (fmt n : Nat) (dims : List Dimension) :
    openFinish (.ok (vars, s4)) fmt n dims = .ok ⟨fmt, n, dims, vars⟩ := rfl

theorem Open_stage (a b c d : Nat) (t : Src) :
    Open ([a, b, c, d] ++ t) =
      if [a % 256, b % 256, c % 256] ≠ [67, 68, 70] then .error .badMagic
      else if d % 256 ≠ 1 ∧ d % 256 ≠ 2 then .error (.unsupportedFormat (d % 256))
      else openDims (readU32 t) (d % 256) := by
  unfold Open openDims openVars openFinish
  rw [fRead_append [a, b, c, d] t 4 rfl (by decide)]
  rfl

theorem readU32_seg (x0 x1 x2 x3 : Nat) (r : Src) :
    readU32 ([x0, x1, x2, x3] ++ r) = .ok (word [x0, x1, x2, x3], r) :=
  readU32_append _ _ rfl

theorem word_0000 : word [0, 0, 0, 0] = 0 := by decide

theorem word_0001 : word [0, 0, 0, 1] = 1 := by decide

theorem word_0003 : word [0, 0, 0, 3] = 3 := by decide

theorem word_0004 : word [0, 0, 0, 4] = 4 := by decide

theorem word_0005 : word [0, 0, 0, 5] = 5 := by decide

theorem word_0008 : word [0, 0, 0, 8] = 8 := by decide

theorem word_0064 : word [0, 0, 0, 64] = 64 := by decide

theorem word_0180 : word [0, 0, 0, 180] = 180 := by decide

theorem padOf_one : padOf 1 = 3 := by decide

theorem padOf_three : padOf 3 = 1 := by decide

theorem readDims_zero (s : Src) : readDims 0 s = .ok ([], s) := rfl

theorem readAttrs_zero (s : Src) : readAttrs 0 s = .ok ([], s) := rfl

theorem readVars_zero (s : Src) : readVars 0 s = .ok ([], s) := rfl

theorem readDimIDs_zero (s : Src) : readDimIDs 0 s = .ok ([], s) := rfl

def dimItem2 (r : Except Err (Nat × Src)) (nm : List Nat) :
    Except Err (List Dimension × Src) :=
  match r with
  | .error e => .error e
  | .ok (len, s2) => .ok ([⟨nm, len⟩], s2)

def dimItem1 (r : Except Err (List Nat × Src)) : Except Err (List Dimension × Src) :=
  match r with
  | .error e => .error e
  | .ok (nm, s1) => dimItem2 (readU32 s1) nm

theorem readDims_one (s : Src) : readDims 1 s = dimItem1 (readString s) := by
  unfold readDims dimItem1 dimItem2
  rfl

theorem dimItem1_ok (nm : List Nat) (s1 : Src) :
    dimItem1 (.ok (nm, s1)) = dimItem2 (readU32 s1) nm := rfl

theorem dimItem2_ok (len : Nat) (s2 : Src) (nm : List Nat) :
    dimItem2 (.ok (len, s2)) nm = .ok ([⟨nm, len⟩], s2) := rfl

def oneVar (r : Except Err (Variable × Src)) : Except Err (List Variable × Src) :=
  match r with
  | .error e => .error e
  | .ok (v, s1) => .ok ([v], s1)

theorem readVars_one (s : Src) : readVars 1 s = oneVar (readVar s) := by
  unfold readVars oneVar
  rfl

theorem oneVar_ok (v : Variable) (s1 : Src) : oneVar (.ok (v, s1)) = .ok ([v], s1) := rfl

def oneAttr (r : Except Err (Attr × Src)) : Except Err (List Attr × Src) :=
  match r with
  | .error e => .error e
  | .ok (a, s1) => .ok ([a], s1)

theorem readAttrs_one (s : Src) : readAttrs 1 s = oneAttr (readAttr s) := by
  unfold readAttrs oneAttr
  rfl

theorem oneAttr_ok (a : Attr) (s1 : Src) : oneAttr (.ok (a, s1)) = .ok ([a], s1) := rfl

theorem readDimList_tag10 (r : Src) :
    readDimList ([0, 0, 0, 10] ++ r) = dimsTagged (readU32 r) := by
  unfold readDimList dimsTagged
  rw [readU32_seg]
  rfl

theorem readAttrList_tag12 (r : Src) :
    readAttrList ([0, 0, 0, 12] ++ r) = attrsTagged (readU32 r) := by
  unfold readAttrList attrsTagged
  rw [readU32_seg]
  rfl

theorem readVarList_tag11 (r : Src) :
    readVarList ([0, 0, 0, 11] ++ r) = varsTagged (readU32 r) := by
  unfold readVarList varsTagged
  rw [readU32_seg]
  rfl

theorem readDimList_zeroTag (r : Src) : readDimList ([0, 0, 0, 0] ++ r) = .ok ([], r) := by
  unfold readDimList
  rw [readU32_seg]
  rfl

theorem readAttrList_zeroTag (r : Src) : readAttrList ([0, 0, 0, 0] ++ r) = .ok ([], r) := by
  unfold readAttrList
  rw [readU32_seg]
  rfl

theorem readVarList_zeroTag (r : Src) : readVarList ([0, 0, 0, 0] ++ r) = .ok ([], r) := by
  unfold readVarList
  rw [readU32_seg]
  rfl

theorem readString_len1 (x p1 p2 p3 : Nat) (r : Src) :
    readString ([0, 0, 0, 1] ++ ([x] ++ ([p1, p2, p3] ++ r))) = .ok ([x % 256], r) := by
  refine readString_append [0, 0, 0, 1] [x] [p1, p2, p3] r rfl ?_ ?_
  · rw [word_0001]; simp
  · rw [word_0001, padOf_one]; simp

theorem readString_len3 (x y z p : Nat) (r : Src) :
    readString ([0, 0, 0, 3] ++ ([x, y, z] ++ ([p] ++ r))) =
      .ok ([x % 256, y % 256, z % 256], r) := by
  refine readString_append [0, 0, 0, 3] [x, y, z] [p] r rfl ?_ ?_
  · rw [word_0003]; simp
  · rw [word_0003, padOf_three]; simp

theorem readAttr_seg (a p1 p2 p3 t0 t1 t2 t3 v w1 w2 w3 : Nat) (r : Src) :
    readAttr ([0, 0, 0, 1] ++ ([a] ++ ([p1, p2, p3] ++
        ([t0, t1, t2, t3] ++ ([0, 0, 0, 1] ++ ([v] ++ ([w1, w2, w3] ++ r))))))) =
      .ok (⟨[a % 256], word [t0, t1, t2, t3], [v % 256]⟩, r) := by
  refine readAttr_append [0, 0, 0, 1] [a] [p1, p2, p3] [t0, t1, t2, t3] [0, 0, 0, 1]
    [v] [w1, w2, w3] r rfl ?_ ?_ rfl rfl ?_ ?_
  · rw [word_0001]; simp
  · rw [word_0001, padOf_one]; simp
  · rw [word_0001]; simp
  · rw [word_0001, padOf_one]; simp

/-! Concrete byte streams used by individual claims. -/

/-- A grammar-conforming header: magic `CDF`, format 1, numrecs 0, absent
dim list, then a present global attribute list (tag 0x0C, one attribute
`"a"` with type 0 and no value bytes), then an absent variable list. -/
def c1GattStream : Src :=
  [67, 68, 70, 1] ++ ([0, 0, 0, 0] ++ ([0, 0, 0, 0] ++
    ([0, 0, 0, 12, 0, 0, 0, 1, 0, 0, 0, 1, 97, 0, 0, 0, 0, 0, 0, 0, 0, 0, 0, 0] ++
      [0, 0, 0, 0])))

/-- The C2 scenario stream laid out per the grammar: magic `CDF`, format 1,
numrecs 0, dim list `[("lat", 180)]`, the absent global attribute list
(a single zero word), then a variable list with one variable `"temp"`
(ndims 1, dimid 0, absent nested attribute list, type 5, vsize 720,
offset 1024). -/
def c2ClaimedStream : Src :=
  [67, 68, 70, 1, 0, 0, 0, 0,
   0, 0, 0, 10, 0, 0, 0, 1, 0, 0, 0, 3, 108, 97, 116, 0, 0, 0, 0, 180,
   0, 0, 0, 0,
   0, 0, 0, 11, 0, 0, 0, 1,
   0, 0, 0, 4, 116, 101, 109, 112,
   0, 0, 0, 1, 0, 0, 0, 0,
   0, 0, 0, 0,
   0, 0, 0, 5, 0, 0, 2, 208, 0, 0, 4, 0]

/-- The C2 scenario stream as the code expects it: identical to
`c2ClaimedStream` but without the absent-global-attribute-list zero word. -/
def c2CodeStream : Src :=
  [67, 68, 70, 1, 0, 0, 0, 0,
   0, 0, 0, 10, 0, 0, 0, 1, 0, 0, 0, 3, 108, 97, 116, 0, 0, 0, 0, 180,
   0, 0, 0, 11, 0, 0, 0, 1,
   0, 0, 0, 4, 116, 101, 109, 112,
   0, 0, 0, 1, 0, 0, 0, 0,
   0, 0, 0, 0,
   0, 0, 0, 5, 0, 0, 2, 208, 0, 0, 4, 0]

/-- Claim C1, counterexample: on a grammar-conforming stream whose global
attribute list is present (tag 0x0C) between the dimension list and the
variable list, `Open` does not consume the attribute list at all: it reads
the 0x0C tag word as the variable-list tag and fails, even though the
attribute list decodes fine at that position and an absent variable list
follows it. -/
theorem C1_counterexample :
    Open c1GattStream = .error (.invalidVarListTag 12) ∧
      readAttrList
          ([0, 0, 0, 12, 0, 0, 0, 1, 0, 0, 0, 1, 97, 0, 0, 0, 0, 0, 0, 0, 0, 0, 0, 0] ++
            [0, 0, 0, 0]) =
        .ok ([⟨[97], 0, []⟩], [0, 0, 0, 0]) ∧
      readVarList [0, 0, 0, 0] = .ok ([], []) := by
  refine ⟨?_, ?_, ?_⟩ <;> decide

/-- Claim C1 (amended): after the magic/format bytes and the 4-byte record
count, `Open` decodes the dimension list and then immediately the variable
list from the bytes that follow it; no global attribute list is consumed
between the two. -/
theorem C1_dim_then_var (a b c d : Nat) (rest : Src) :
    Open ([67, 68, 70, 1] ++ ([a, b, c, d] ++ rest)) =
      match readDimList rest with
      | .error e => .error e
      | .ok (dims, s3) =>
        match readVarList s3 with
        | .error e => .error e
        | .ok (vars, _s4) => .ok ⟨1, word [a, b, c, d], dims, vars⟩ := by
  rw [Open_stage 67 68 70 1, if_neg (by decide), if_neg (by decide), readU32_seg,
    openDims_ok, show (1 : Nat) % 256 = 1 from rfl]
  unfold openVars openFinish
  rfl

/-- Claim C2, counterexample: on the spec scenario stream laid out per the
grammar (with the absent global attribute list present as a zero word),
`Open` succeeds but returns an empty variable sequence — the zero word is
consumed as the variable-list tag — rather than the claimed
`[{temp, [0], attrs [], type 5, vsize 720, offset 1024}]`. -/
theorem C2_counterexample :
    Open c2ClaimedStream = .ok ⟨1, 0, [⟨[108, 97, 116], 180⟩], []⟩ ∧
      Open c2ClaimedStream ≠
        .ok ⟨1, 0, [⟨[108, 97, 116], 180⟩],
          [⟨[116, 101, 109, 112], [0], 5, 720, 1024, []⟩]⟩ := by
  refine ⟨?_, ?_⟩ <;> decide

/-- Claim C2 (amended): on the scenario stream without the zero word — the
dimension list followed directly by the variable list, which is where the
code expects it — `Open` succeeds and the variable sequence is exactly
`[{name "temp", dimIDs [0], attrs [], type 5, vsize 720, offset 1024}]`. -/
theorem C2_temp_variable :
    Open c2CodeStream =
      .ok ⟨1, 0, [⟨[108, 97, 116], 180⟩],
        [⟨[116, 101, 109, 112], [0], 5, 720, 1024, []⟩]⟩ := by
  decide

theorem fRead_nil (n : Nat) (hn : n ≠ 0) : fRead [] n = .error .eof := by
  unfold fRead
  rw [if_neg hn]
  rfl

def dimTagStep (r : Except Err (Nat × Src)) : Except Err (List Dimension × Src) :=
  match r with
  | .error e => .error e
  | .ok (tag, s1) =>
    if tag = 0 then .ok ([], s1)
    else if tag ≠ 10 then .error (.invalidDimListTag tag)
    else dimsTagged (readU32 s1)

def attrTagStep (r : Except Err (Nat × Src)) : Except Err (List Attr × Src) :=
  match r with
  | .error e => .error e
  | .ok (tag, s1) =>
    if tag = 0 then .ok ([], s1)
    else if tag ≠ 12 then .error (.invalidAttrListTag tag)
    else attrsTagged (readU32 s1)

def varTagStep (r : Except Err (Nat × Src)) : Except Err (List Variable × Src) :=
  match r with
  | .error e => .error e
  | .ok (tag, s1) =>
    if tag = 0 then .ok ([], s1)
    else if tag ≠ 11 then .error (.invalidVarListTag tag)
    else varsTagged (readU32 s1)

theorem readDimList_staged (s : Src) : readDimList s = dimTagStep (readU32 s) := by
  unfold readDimList dimTagStep dimsTagged
  rfl

theorem readAttrList_staged (s : Src) : readAttrList s = attrTagStep (readU32 s) := by
  unfold readAttrList attrTagStep attrsTagged
  rfl

theorem readVarList_staged (s : Src) : readVarList s = varTagStep (readU32 s) := by
  unfold readVarList varTagStep varsTagged
  rfl

theorem dimTagStep_err (e : Err) : dimTagStep (.error e) = .error e := rfl

theorem dimTagStep_ok (tag : Nat) (s1 : Src) :
    dimTagStep (.ok (tag, s1)) =
      if tag = 0 then .ok ([], s1)
      else if tag ≠ 10 then .error (.invalidDimListTag tag)
      else dimsTagged (readU32 s1) := rfl

theorem attrTagStep_err (e : Err) : attrTagStep (.error e) = .error e := rfl

theorem attrTagStep_ok (tag : Nat) (s1 : Src) :
    attrTagStep (.ok (tag, s1)) =
      if tag = 0 then .ok ([], s1)
      else if tag ≠ 12 then .error (.invalidAttrListTag tag)
      else attrsTagged (readU32 s1) := rfl

theorem varTagStep_err (e : Err) : varTagStep (.error e) = .error e := rfl

theorem varTagStep_ok (tag : Nat) (s1 : Src) :
    varTagStep (.ok (tag, s1)) =
      if tag = 0 then .ok ([], s1)
      else if tag ≠ 11 then .error (.invalidVarListTag tag)
      else varsTagged (readU32 s1) := rfl

/-- Claim C3, counterexample: `readString` does not fail with `TruncatedRead`
when the padding, the payload, or the length field cannot be fully consumed.
With length 1 and no padding bytes left, the padding skip is a relative seek
past end of input and succeeds; with length 5 and one payload byte left, the
short read is zero-filled without error; with only 2 of the 4 length bytes
left, the length read is likewise zero-filled and the call succeeds. -/
theorem C3_counterexample :
    readString [0, 0, 0, 1, 65] = .ok ([65], []) ∧
      readString [0, 0, 0, 5, 65] = .ok ([65, 0, 0, 0, 0], []) ∧
      readString [0, 0] = .ok ([], []) := by
  refine ⟨?_, ?_, ?_⟩ <;> decide

/-- Claim C3 (amended): on a buffer whose 4-byte length field decodes to N
and which has at least N + pad bytes after it, `readString` consumes exactly
4 + N + pad bytes, returning the N payload bytes, and N + pad is always a
multiple of 4; and `readString` returns an error (the read error `eof`)
exactly when the buffer is empty, or the length value is nonzero and nothing
remains after the 4 length bytes — a partially available length field or
payload is zero-filled without error, and the padding skip never fails. -/
theorem C3_readString_contract :
    (∀ b4 payload padb rest : List Nat, b4.length = 4 → payload.length = word b4 →
      padb.length = padOf (word b4) →
      readString (b4 ++ (payload ++ (padb ++ rest))) = .ok (payload.map (· % 256), rest)) ∧
    (∀ N : Nat, (N + padOf N) % 4 = 0) ∧
    (∀ (s : Src) (e : Err), readString s = .error e ↔
      (e = .eof ∧ (s = [] ∨ (word s ≠ 0 ∧ s.drop 4 = [])))) := by
  refine ⟨readString_append, ?_, ?_⟩
  · intro N
    unfold padOf
    omega
  · intro s e
    rcases eq_or_ne s [] with rfl | hs
    · rw [show readString ([] : Src) = .error .eof from rfl]
      simp [eq_comm]
    · rw [readString_staged, readU32_eq _ hs, strS1_ok]
      by_cases h0 : word s = 0
      · rw [h0, fRead_zero, strS2_ok, if_neg (by decide)]
        simp [h0, hs]
      · rcases hd : s.drop 4 with _ | ⟨y, ys⟩
        · rw [fRead_nil _ h0, strS2_err]
          simp [h0, hs, hd, eq_comm]
        · rw [fRead_cons _ _ _ h0, strS2_ok]
          simp [h0, hs, hd]

/-- Claim C4: for each of the three tagged-list readers, a zero tag word
yields the empty sequence immediately, consuming exactly the 4 tag bytes and
reading no count field; and `Open` then proceeds to the next list — with an
absent dimension list it goes straight on to decode the variable list from
the following bytes. -/
theorem C4_zero_tag :
    (∀ rest : Src, readDimList ([0, 0, 0, 0] ++ rest) = .ok ([], rest)) ∧
    (∀ rest : Src, readAttrList ([0, 0, 0, 0] ++ rest) = .ok ([], rest)) ∧
    (∀ rest : Src, readVarList ([0, 0, 0, 0] ++ rest) = .ok ([], rest)) ∧
    (∀ (a b c d : Nat) (rest : Src),
      Open ([67, 68, 70, 1] ++ ([a, b, c, d] ++ ([0, 0, 0, 0] ++ rest))) =
        match readVarList rest with
        | .error e => .error e
        | .ok (vars, _s4) => .ok ⟨1, word [a, b, c, d], [], vars⟩) := by
  refine ⟨readDimList_zeroTag, readAttrList_zeroTag, readVarList_zeroTag, ?_⟩
  intro a b c d rest
  rw [Open_stage 67 68 70 1, if_neg (by decide), if_neg (by decide), readU32_seg,
    openDims_ok, show (1 : Nat) % 256 = 1 from rfl, readDimList_zeroTag, openVars_ok]
  unfold openFinish
  rfl

/-- Claim C5: whenever the 4-byte tag word read at a list position is nonzero
and differs from the expected discriminator (0x0A dims, 0x0C attrs, 0x0B
vars), the list reader fails with the corresponding invalid-tag
(structural-mismatch) error; and `Open` on such a stream returns that error
and no result. -/
theorem C5_tag_mismatch :
    (∀ (s : Src) (w : Nat) (s1 : Src), readU32 s = .ok (w, s1) → w ≠ 0 → w ≠ 10 →
      readDimList s = .error (.invalidDimListTag w)) ∧
    (∀ (s : Src) (w : Nat) (s1 : Src), readU32 s = .ok (w, s1) → w ≠ 0 → w ≠ 12 →
      readAttrList s = .error (.invalidAttrListTag w)) ∧
    (∀ (s : Src) (w : Nat) (s1 : Src), readU32 s = .ok (w, s1) → w ≠ 0 → w ≠ 11 →
      readVarList s = .error (.invalidVarListTag w)) ∧
    (∀ (a b c d : Nat) (t4 rest : List Nat), t4.length = 4 → word t4 ≠ 0 → word t4 ≠ 10 →
      Open ([67, 68, 70, 1] ++ ([a, b, c, d] ++ (t4 ++ rest))) =
        .error (.invalidDimListTag (word t4))) := by
  refine ⟨?_, ?_, ?_, ?_⟩
  · intro s w s1 h hw h10
    rw [readDimList_staged, h, dimTagStep_ok, if_neg hw, if_pos h10]
  · intro s w s1 h hw h12
    rw [readAttrList_staged, h, attrTagStep_ok, if_neg hw, if_pos h12]
  · intro s w s1 h hw h11
    rw [readVarList_staged, h, varTagStep_ok, if_neg hw, if_pos h11]
  · intro a b c d t4 rest ht hw0 hw10
    rw [Open_stage 67 68 70 1, if_neg (by decide), if_neg (by decide), readU32_seg,
      openDims_ok, readDimList_staged, readU32_append t4 rest ht, dimTagStep_ok,
      if_neg hw0, if_pos hw10, openVars_err]

/-- Closed instantiation of the C5 theorem: tag word 7 at each list position
produces the matching invalid-tag error, also through `Open`. -/
theorem C5_tag_mismatch_witness :
    readDimList [0, 0, 0, 7] = .error (.invalidDimListTag 7) ∧
      readAttrList [0, 0, 0, 7] = .error (.invalidAttrListTag 7) ∧
      readVarList [0, 0, 0, 7] = .error (.invalidVarListTag 7) ∧
      Open ([67, 68, 70, 1] ++ ([0, 0, 0, 0] ++ ([0, 0, 0, 7] ++ []))) =
        .error (.invalidDimListTag 7) :=
  ⟨C5_tag_mismatch.1 [0, 0, 0, 7] 7 [] (by decide) (by decide) (by decide),
   C5_tag_mismatch.2.1 [0, 0, 0, 7] 7 [] (by decide) (by decide) (by decide),
   C5_tag_mismatch.2.2.1 [0, 0, 0, 7] 7 [] (by decide) (by decide) (by decide),
   C5_tag_mismatch.2.2.2 0 0 0 0 [0, 0, 0, 7] [] (by decide) (by decide) (by decide)⟩

/-- Closed instantiation of the C3 theorem: a length-1 text with its three
padding bytes and two trailing bytes consumes exactly 8 bytes; 1 + padOf 1 is
a multiple of 4; and the error characterisation at the empty buffer. -/
theorem C3_readString_contract_witness :
    readString ([0, 0, 0, 1] ++ ([65] ++ ([7, 7, 7] ++ [9, 9]))) = .ok ([65], [9, 9]) ∧
      (1 + padOf 1) % 4 = 0 ∧
      (readString ([] : Src) = .error .eof ↔
        (Err.eof = .eof ∧ (([] : Src) = [] ∨ (word [] ≠ 0 ∧ ([] : Src).drop 4 = [])))) :=
  ⟨C3_readString_contract.1 [0, 0, 0, 1] [65] [7, 7, 7] [9, 9] (by decide) (by decide)
      (by decide),
   C3_readString_contract.2.1 1,
   C3_readString_contract.2.2 [] .eof⟩

/-- Claim C6: on any input of at least 4 bytes whose first three bytes are
not the ASCII bytes of `CDF`, `Open` fails with the bad-magic error; and when
they are `CDF`, `Open` never returns the bad-magic error. -/
theorem C6_magic :
    (∀ (a b c d : Nat) (t : Src), [a % 256, b % 256, c % 256] ≠ [67, 68, 70] →
      Open (a :: b :: c :: d :: t) = .error .badMagic) ∧
    (∀ (a b c d : Nat) (t : Src), [a % 256, b % 256, c % 256] = [67, 68, 70] →
      Open (a :: b :: c :: d :: t) ≠ .error .badMagic) := by
  constructor
  · intro a b c d t hm
    rw [show (a :: b :: c :: d :: t) = [a, b, c, d] ++ t from rfl, Open_stage, if_pos hm]
  · intro a b c d t hm hcontra
    rw [show (a :: b :: c :: d :: t) = [a, b, c, d] ++ t from rfl, Open_stage,
      if_neg (not_not_intro hm)] at hcontra
    by_cases hf : d % 256 ≠ 1 ∧ d % 256 ≠ 2
    · rw [if_pos hf] at hcontra
      exact Err.noConfusion (Except.error.inj hcontra)
    · rw [if_neg hf] at hcontra
      cases hru : readU32 t with
      | error e =>
        rw [hru, openDims_err] at hcontra
        have he := readU32_err_eof _ _ hru
        subst he
        exact Err.noConfusion (Except.error.inj hcontra)
      | ok p =>
        obtain ⟨n, s2⟩ := p
        rw [hru, openDims_ok] at hcontra
        cases hdl : readDimList s2 with
        | error e =>
          rw [hdl, openVars_err] at hcontra
          have h1 := (Except.error.inj hcontra)
          subst h1
          rcases readDimList_err _ _ hdl with h | ⟨t', ht'⟩
          · exact Err.noConfusion h
          · exact Err.noConfusion ht'
        | ok q =>
          obtain ⟨dims, s3⟩ := q
          rw [hdl, openVars_ok] at hcontra
          cases hvl : readVarList s3 with
          | error e =>
            rw [hvl, openFinish_err] at hcontra
            have h1 := (Except.error.inj hcontra)
            subst h1
            rcases readVarList_err _ _ hvl with h | ⟨t', ht'⟩ | ⟨t', ht'⟩
            · exact Err.noConfusion h
            · exact Err.noConfusion ht'
            · exact Err.noConfusion ht'
          | ok r =>
            obtain ⟨vars, s4⟩ := r
            rw [hvl, openFinish_ok] at hcontra
            exact Except.noConfusion hcontra

/-- Closed instantiation of the C6 theorem: a wrong first byte fails with
bad magic; with `CDF` in place the result is not the bad-magic error. -/
theorem C6_magic_witness :
    Open (88 :: 68 :: 70 :: 1 :: []) = .error .badMagic ∧
      Open (67 :: 68 :: 70 :: 1 :: []) ≠ .error .badMagic :=
  ⟨C6_magic.1 88 68 70 1 [] (by decide), C6_magic.2 67 68 70 1 [] (by decide)⟩

/-- Claim C7: with the `CDF` magic in place, a 4th byte other than 1 or 2
makes `Open` fail with the unsupported-format error carrying that byte; and
whenever `Open` succeeds, the result's format field equals the 4th byte — in
particular 1 (Classic) when the byte is 1, and 2 (64-bit offset) when it
is 2. -/
theorem C7_format :
    (∀ (a b c d : Nat) (t : Src), [a % 256, b % 256, c % 256] = [67, 68, 70] →
      (d % 256 ≠ 1 ∧ d % 256 ≠ 2 →
        Open (a :: b :: c :: d :: t) = .error (.unsupportedFormat (d % 256))) ∧
      (∀ h : File, Open (a :: b :: c :: d :: t) = .ok h → h.format = d % 256)) ∧
    (∀ (a b c d : Nat) (t : Src), [a % 256, b % 256, c % 256] = [67, 68, 70] →
      d % 256 = 1 → ∀ h : File, Open (a :: b :: c :: d :: t) = .ok h → h.format = 1) ∧
    (∀ (a b c d : Nat) (t : Src), [a % 256, b % 256, c % 256] = [67, 68, 70] →
      d % 256 = 2 → ∀ h : File, Open (a :: b :: c :: d :: t) = .ok h → h.format = 2) := by
  have main : ∀ (a b c d : Nat) (t : Src), [a % 256, b % 256, c % 256] = [67, 68, 70] →
      (d % 256 ≠ 1 ∧ d % 256 ≠ 2 →
        Open (a :: b :: c :: d :: t) = .error (.unsupportedFormat (d % 256))) ∧
      (∀ h : File, Open (a :: b :: c :: d :: t) = .ok h → h.format = d % 256) := by
    intro a b c d t hm
    constructor
    · intro hf
      rw [show (a :: b :: c :: d :: t) = [a, b, c, d] ++ t from rfl, Open_stage,
        if_neg (not_not_intro hm), if_pos hf]
    · intro h hok
      rw [show (a :: b :: c :: d :: t) = [a, b, c, d] ++ t from rfl, Open_stage,
        if_neg (not_not_intro hm)] at hok
      by_cases hf : d % 256 ≠ 1 ∧ d % 256 ≠ 2
      · rw [if_pos hf] at hok
        exact Except.noConfusion hok
      · rw [if_neg hf] at hok
        cases hru : readU32 t with
        | error e =>
          rw [hru, openDims_err] at hok
          exact Except.noConfusion hok
        | ok p =>
          obtain ⟨n, s2⟩ := p
          rw [hru, openDims_ok] at hok
          cases hdl : readDimList s2 with
          | error e =>
            rw [hdl, openVars_err] at hok
            exact Except.noConfusion hok
          | ok q =>
            obtain ⟨dims, s3⟩ := q
            rw [hdl, openVars_ok] at hok
            cases hvl : readVarList s3 with
            | error e =>
              rw [hvl, openFinish_err] at hok
              exact Except.noConfusion hok
            | ok r =>
              obtain ⟨vars, s4⟩ := r
              rw [hvl, openFinish_ok] at hok
              have h1 := Except.ok.inj hok
              rw [← h1]
  refine ⟨main, ?_, ?_⟩
  · intro a b c d t hm hd h hok
    rw [(main a b c d t hm).2 h hok, hd]
  · intro a b c d t hm hd h hok
    rw [(main a b c d t hm).2 h hok, hd]

/-- Closed instantiation of the C7 theorem: format byte 3 is rejected with
the unsupported-format error; a minimal well-formed Classic stream parses
with format 1. -/
theorem C7_format_witness :
    Open (67 :: 68 :: 70 :: 3 :: []) = .error (.unsupportedFormat 3) ∧
      (⟨1, 0, [], []⟩ : File).format = 1 :=
  ⟨(C7_format.1 67 68 70 3 [] (by decide)).1 (by decide),
   C7_format.2.1 67 68 70 1 ([0, 0, 0, 0] ++ ([0, 0, 0, 0] ++ [0, 0, 0, 0])) (by decide)
     (by decide) ⟨1, 0, [], []⟩ (by decide)⟩

/-- Claim C8: the variable item decoder reads the data-block offset with a
single `readU32` — after name, nDims, dimIDs, nested attribute list, type
and vsize, the remainder of the item decode is exactly one more `readU32`
whose value becomes the offset; `readU32` consumes exactly 4 bytes; and the
parse does not depend on the format byte: `Open` on a 64-bit-offset stream
returns the same outcome as on the Classic stream with the same remaining
bytes, with only the format field changed — the offset field is never read
as 8 bytes. -/
theorem C8_offset_single_u32 :
    (∀ (s : Src) (name : List Nat) (s1 : Src) (nD : Nat) (s2 : Src) (ids : List Nat)
        (s3 : Src) (attrs : List Attr) (s4 : Src) (ty : Nat) (s5 : Src) (vs : Nat)
        (s6 : Src),
      readString s = .ok (name, s1) → readU32 s1 = .ok (nD, s2) →
      readDimIDs nD s2 = .ok (ids, s3) → readAttrList s3 = .ok (attrs, s4) →
      readU32 s4 = .ok (ty, s5) → readU32 s5 = .ok (vs, s6) →
      readVar s =
        match readU32 s6 with
        | .error e => .error e
        | .ok (off, s7) => .ok (⟨name, ids, ty, vs, off, attrs⟩, s7)) ∧
    (∀ b4 r : List Nat, b4.length = 4 → readU32 (b4 ++ r) = .ok (word b4, r)) ∧
    (∀ rest : Src, Open (67 :: 68 :: 70 :: 2 :: rest) =
      (Open (67 :: 68 :: 70 :: 1 :: rest)).map fun h => ⟨2, h.numRecs, h.dims, h.vars⟩) := by
  refine ⟨?_, readU32_append, ?_⟩
  · intro s name s1 nD s2 ids s3 attrs s4 ty s5 vs s6 h1 h2 h3 h4 h5 h6
    rw [readVar_staged, h1, varS1_ok, h2, varS2_ok, h3, varS3_ok, h4, varS4_ok,
      h5, varS5_ok, h6, varS6_ok]
    unfold varS7
    rfl
  · intro rest
    rw [show (67 :: 68 :: 70 :: 2 :: rest) = [67, 68, 70, 2] ++ rest from rfl,
      show (67 :: 68 :: 70 :: 1 :: rest) = [67, 68, 70, 1] ++ rest from rfl,
      Open_stage 67 68 70 2, Open_stage 67 68 70 1,
      if_neg (by decide), if_neg (by decide), if_neg (by decide), if_neg (by decide),
      show (2 : Nat) % 256 = 2 from rfl, show (1 : Nat) % 256 = 1 from rfl]
    cases hru : readU32 rest with
    | error e => rw [openDims_err, openDims_err]; rfl
    | ok p =>
      obtain ⟨n, s2⟩ := p
      rw [openDims_ok, openDims_ok]
      cases hdl : readDimList s2 with
      | error e => rw [openVars_err, openVars_err]; rfl
      | ok q =>
        obtain ⟨dims, s3⟩ := q
        rw [openVars_ok, openVars_ok]
        cases hvl : readVarList s3 with
        | error e => rw [openFinish_err, openFinish_err]; rfl
        | ok r =>
          obtain ⟨vars, s4⟩ := r
          rw [openFinish_ok, openFinish_ok]
          rfl

/-- Closed instantiation of the C8 theorem, at the `"temp"` variable item
bytes: the offset 1024 is the big-endian value of the last four bytes, the
consumed suffix ends exactly there, and `readU32` on a 4-byte segment
consumes those 4 bytes; plus the format-independence instance on the empty
tail. -/
theorem C8_offset_single_u32_witness :
    readVar [0, 0, 0, 4, 116, 101, 109, 112, 0, 0, 0, 1, 0, 0, 0, 0, 0, 0, 0, 0,
        0, 0, 0, 5, 0, 0, 2, 208, 0, 0, 4, 0] =
      .ok (⟨[116, 101, 109, 112], [0], 5, 720, 1024, []⟩, []) ∧
      readU32 ([0, 0, 4, 0] ++ [9]) = .ok (1024, [9]) ∧
      Open (67 :: 68 :: 70 :: 2 :: []) =
        (Open (67 :: 68 :: 70 :: 1 :: [])).map fun h => ⟨2, h.numRecs, h.dims, h.vars⟩ :=
  ⟨C8_offset_single_u32.1
      [0, 0, 0, 4, 116, 101, 109, 112, 0, 0, 0, 1, 0, 0, 0, 0, 0, 0, 0, 0,
        0, 0, 0, 5, 0, 0, 2, 208, 0, 0, 4, 0]
      [116, 101, 109, 112] [0, 0, 0, 1, 0, 0, 0, 0, 0, 0, 0, 0, 0, 0, 0, 5, 0, 0, 2, 208, 0, 0, 4, 0]
      1 [0, 0, 0, 0, 0, 0, 0, 0, 0, 0, 0, 5, 0, 0, 2, 208, 0, 0, 4, 0]
      [0] [0, 0, 0, 0, 0, 0, 0, 5, 0, 0, 2, 208, 0, 0, 4, 0]
      [] [0, 0, 0, 5, 0, 0, 2, 208, 0, 0, 4, 0]
      5 [0, 0, 2, 208, 0, 0, 4, 0]
      720 [0, 0, 4, 0]
      (by decide) (by decide) (by decide) (by decide) (by decide) (by decide),
   C8_offset_single_u32.2.1 [0, 0, 4, 0] [9] (by decide),
   C8_offset_single_u32.2.2 []⟩

/-- Claim C9: `Open` is all-or-nothing and error-transparent — a failure of
the record-count read, the dimension-list read or the variable-list read
becomes `Open`'s own error value unchanged, and when all three succeed the
result is the fully populated record; likewise inside the decoders, a
`readU32` or payload-read failure is `readString`'s error unchanged, and a
`readString` or nested attribute-list failure is the variable item decoder's
error unchanged. -/
theorem C9_error_propagation :
    (∀ (t : Src) (e : Err), readU32 t = .error e →
      Open ([67, 68, 70, 1] ++ t) = .error e) ∧
    (∀ (t : Src) (n : Nat) (s2 : Src) (e : Err), readU32 t = .ok (n, s2) →
      readDimList s2 = .error e → Open ([67, 68, 70, 1] ++ t) = .error e) ∧
    (∀ (t : Src) (n : Nat) (s2 : Src) (dims : List Dimension) (s3 : Src) (e : Err),
      readU32 t = .ok (n, s2) → readDimList s2 = .ok (dims, s3) →
      readVarList s3 = .error e → Open ([67, 68, 70, 1] ++ t) = .error e) ∧
    (∀ (t : Src) (n : Nat) (s2 : Src) (dims : List Dimension) (s3 : Src)
        (vars : List Variable) (s4 : Src),
      readU32 t = .ok (n, s2) → readDimList s2 = .ok (dims, s3) →
      readVarList s3 = .ok (vars, s4) →
      Open ([67, 68, 70, 1] ++ t) = .ok ⟨1, n, dims, vars⟩) ∧
    (∀ (s : Src) (e : Err), readU32 s = .error e → readString s = .error e) ∧
    (∀ (s : Src) (n : Nat) (s1 : Src) (e : Err), readU32 s = .ok (n, s1) →
      fRead s1 n = .error e → readString s = .error e) ∧
    (∀ (s : Src) (e : Err), readString s = .error e → readVar s = .error e) ∧
    (∀ (s : Src) (name : List Nat) (s1 : Src) (nD : Nat) (s2 : Src) (ids : List Nat)
        (s3 : Src) (e : Err),
      readString s = .ok (name, s1) → readU32 s1 = .ok (nD, s2) →
      readDimIDs nD s2 = .ok (ids, s3) → readAttrList s3 = .error e →
      readVar s = .error e) := by
  refine ⟨?_, ?_, ?_, ?_, ?_, ?_, ?_, ?_⟩
  · intro t e h
    rw [Open_stage 67 68 70 1, if_neg (by decide), if_neg (by decide), h, openDims_err]
  · intro t n s2 e h1 h2
    rw [Open_stage 67 68 70 1, if_neg (by decide), if_neg (by decide), h1, openDims_ok,
      h2, openVars_err]
  · intro t n s2 dims s3 e h1 h2 h3
    rw [Open_stage 67 68 70 1, if_neg (by decide), if_neg (by decide), h1, openDims_ok,
      h2, openVars_ok, h3, openFinish_err]
  · intro t n s2 dims s3 vars s4 h1 h2 h3
    rw [Open_stage 67 68 70 1, if_neg (by decide), if_neg (by decide), h1, openDims_ok,
      h2, openVars_ok, h3, openFinish_ok, show (1 : Nat) % 256 = 1 from rfl]
  · intro s e h
    rw [readString_staged, h, strS1_err]
  · intro s n s1 e h1 h2
    rw [readString_staged, h1, strS1_ok, h2, strS2_err]
  · intro s e h
    rw [readVar_staged, h, varS1_err]
  · intro s name s1 nD s2 ids s3 e h1 h2 h3 h4
    rw [readVar_staged, h1, varS1_ok, h2, varS2_ok, h3, varS3_ok, h4, varS4_err]

/-- Closed instantiation of the C9 theorem: truncation of the record count,
the dimension list and the variable list each surface unchanged from `Open`;
a complete minimal stream yields the populated record; `readString` and the
variable item decoder pass inner failures through, including a nested
attribute-list tag mismatch. -/
theorem C9_error_propagation_witness :
    Open ([67, 68, 70, 1] ++ []) = .error .eof ∧
      Open ([67, 68, 70, 1] ++ [0, 0, 0, 0]) = .error .eof ∧
      Open ([67, 68, 70, 1] ++ [0, 0, 0, 0, 0, 0, 0, 0]) = .error .eof ∧
      Open ([67, 68, 70, 1] ++ [0, 0, 0, 0, 0, 0, 0, 0, 0, 0, 0, 0]) =
        .ok ⟨1, 0, [], []⟩ ∧
      readString ([] : Src) = .error .eof ∧
      readString [0, 0, 0, 2] = .error .eof ∧
      readVar ([] : Src) = .error .eof ∧
      readVar [0, 0, 0, 0, 0, 0, 0, 0, 0, 0, 0, 7] = .error (.invalidAttrListTag 7) :=
  ⟨C9_error_propagation.1 [] .eof (by decide),
   C9_error_propagation.2.1 [0, 0, 0, 0] 0 [] .eof (by decide) (by decide),
   C9_error_propagation.2.2.1 [0, 0, 0, 0, 0, 0, 0, 0] 0 [0, 0, 0, 0] [] [] .eof
     (by decide) (by decide) (by decide),
   C9_error_propagation.2.2.2.1 [0, 0, 0, 0, 0, 0, 0, 0, 0, 0, 0, 0] 0
     [0, 0, 0, 0, 0, 0, 0, 0] [] [0, 0, 0, 0] [] [] (by decide) (by decide) (by decide),
   C9_error_propagation.2.2.2.2.1 [] .eof (by decide),
   C9_error_propagation.2.2.2.2.2.1 [0, 0, 0, 2] 2 [] .eof (by decide) (by decide),
   C9_error_propagation.2.2.2.2.2.2.1 [] .eof (by decide),
   C9_error_propagation.2.2.2.2.2.2.2 [0, 0, 0, 0, 0, 0, 0, 0, 0, 0, 0, 7] []
     [0, 0, 0, 0, 0, 0, 0, 7] 0 [0, 0, 0, 7] [] [0, 0, 0, 7] (.invalidAttrListTag 7)
     (by decide) (by decide) (by decide) (by decide)⟩

/-- A full header whose single dimension name `"lat"` carries one
alignment-padding byte `p`: magic, format 1, numrecs 0, dim list
`[("lat", 180)]`, absent variable list. -/
def dimPadStream (p : Nat) : Src :=
  [67, 68, 70, 1] ++ ([0, 0, 0, 0] ++ ([0, 0, 0, 10] ++ ([0, 0, 0, 1] ++ ([0, 0, 0, 3] ++ ([108, 97, 116] ++ ([p] ++ ([0, 0, 0, 180] ++ ([0, 0, 0, 0] ++ ([])))))))))

/-- A variable list with one variable `"v"` (name padding bytes `q1 q2 q3`)
holding one attribute `"a"` (name padding `a1 a2 a3`) whose single value
byte 7 carries padding bytes `v1 v2 v3`; then type 5, vsize 8, offset 64. -/
def varAttrPadStream (q1 q2 q3 a1 a2 a3 v1 v2 v3 : Nat) : Src :=
  [0, 0, 0, 11] ++ ([0, 0, 0, 1] ++ ([0, 0, 0, 1] ++ ([118] ++ ([q1, q2, q3] ++ ([0, 0, 0, 0] ++ ([0, 0, 0, 12] ++ ([0, 0, 0, 1] ++ ([0, 0, 0, 1] ++ ([97] ++ ([a1, a2, a3] ++ ([0, 0, 0, 0] ++ ([0, 0, 0, 1] ++ ([7] ++ ([v1, v2, v3] ++ ([0, 0, 0, 5] ++ ([0, 0, 0, 8] ++ ([0, 0, 0, 64] ++ ([]))))))))))))))))))

theorem dimPadStream_eval (p : Nat) :
    Open (dimPadStream p) = .ok ⟨1, 0, [⟨[108, 97, 116], 180⟩], []⟩ := by
  unfold dimPadStream
  rw [Open_stage 67 68 70 1, if_neg (by decide), if_neg (by decide), readU32_seg,
    word_0000, openDims_ok, show (1 : Nat) % 256 = 1 from rfl,
    readDimList_tag10, readU32_seg, word_0001, dimsTagged_ok, readDims_one,
    readString_len3, dimItem1_ok, readU32_seg, word_0180, dimItem2_ok,
    openVars_ok, readVarList_zeroTag, openFinish_ok]

theorem varAttrPadStream_eval (q1 q2 q3 a1 a2 a3 v1 v2 v3 : Nat) :
    readVarList (varAttrPadStream q1 q2 q3 a1 a2 a3 v1 v2 v3) =
      .ok ([⟨[118], [], 5, 8, 64, [⟨[97], 0, [7]⟩]⟩], []) := by
  unfold varAttrPadStream
  rw [readVarList_tag11, readU32_seg, word_0001, varsTagged_ok, readVars_one,
    readVar_staged, readString_len1, varS1_ok, readU32_seg, word_0000, varS2_ok,
    readDimIDs_zero, varS3_ok, readAttrList_tag12, readU32_seg, word_0001,
    attrsTagged_ok, readAttrs_one, readAttr_seg, word_0000, oneAttr_ok, varS4_ok,
    readU32_seg, word_0005, varS5_ok, readU32_seg, word_0008, varS6_ok,
    readU32_seg, word_0064, varS7_ok, oneVar_ok]

/-- Claim C10: padding byte values are never inspected. `readString` returns
the same result on two buffers that differ only in the padding bytes after
the text payload; the attribute item decoder returns the same result on two
buffers that differ only in the padding after the name or after the value
bytes; and parsing whole streams that differ only in padding bytes gives
identical outcomes, both for a dimension name inside `Open` and for a
variable with an attribute inside the variable-list reader. -/
theorem C10_padding_blind :
    (∀ b4 payload p1 p2 rest : List Nat, b4.length = 4 → payload.length = word b4 →
      p1.length = padOf (word b4) → p2.length = padOf (word b4) →
      readString (b4 ++ (payload ++ (p1 ++ rest))) =
        readString (b4 ++ (payload ++ (p2 ++ rest)))) ∧
    (∀ nm4 nmB nmP nmQ t4 c4 vals pb pc rest : List Nat,
      nm4.length = 4 → nmB.length = word nm4 → nmP.length = padOf (word nm4) →
      nmQ.length = padOf (word nm4) → t4.length = 4 → c4.length = 4 →
      vals.length = word c4 → pb.length = padOf (word c4) → pc.length = padOf (word c4) →
      readAttr (nm4 ++ (nmB ++ (nmP ++ (t4 ++ (c4 ++ (vals ++ (pb ++ rest))))))) =
        readAttr (nm4 ++ (nmB ++ (nmQ ++ (t4 ++ (c4 ++ (vals ++ (pc ++ rest)))))))) ∧
    (∀ p q : Nat, Open (dimPadStream p) = Open (dimPadStream q)) ∧
    (∀ q1 q2 q3 a1 a2 a3 v1 v2 v3 r1 r2 r3 b1 b2 b3 w1 w2 w3 : Nat,
      readVarList (varAttrPadStream q1 q2 q3 a1 a2 a3 v1 v2 v3) =
        readVarList (varAttrPadStream r1 r2 r3 b1 b2 b3 w1 w2 w3)) := by
  refine ⟨?_, ?_, ?_, ?_⟩
  · intro b4 payload p1 p2 rest h4 hp hp1 hp2
    rw [readString_append b4 payload p1 rest h4 hp hp1,
      readString_append b4 payload p2 rest h4 hp hp2]
  · intro nm4 nmB nmP nmQ t4 c4 vals pb pc rest h4 hnm hnp hnq ht hc hv hpb hpc
    rw [readAttr_append nm4 nmB nmP t4 c4 vals pb rest h4 hnm hnp ht hc hv hpb,
      readAttr_append nm4 nmB nmQ t4 c4 vals pc rest h4 hnm hnq ht hc hv hpc]
  · intro p q
    rw [dimPadStream_eval p, dimPadStream_eval q]
  · intro q1 q2 q3 a1 a2 a3 v1 v2 v3 r1 r2 r3 b1 b2 b3 w1 w2 w3
    rw [varAttrPadStream_eval q1 q2 q3 a1 a2 a3 v1 v2 v3,
      varAttrPadStream_eval r1 r2 r3 b1 b2 b3 w1 w2 w3]

/-- Closed instantiation of the C10 theorem: nonzero padding bytes give the
same results as zero padding at every padding site. -/
theorem C10_padding_blind_witness :
    readString ([0, 0, 0, 1] ++ ([65] ++ ([9, 9, 9] ++ [5]))) =
        readString ([0, 0, 0, 1] ++ ([65] ++ ([0, 0, 0] ++ [5]))) ∧
      readAttr ([0, 0, 0, 1] ++ ([97] ++ ([9, 9, 9] ++ ([0, 0, 0, 0] ++
            ([0, 0, 0, 1] ++ ([7] ++ ([9, 9, 9] ++ []))))))) =
        readAttr ([0, 0, 0, 1] ++ ([97] ++ ([0, 0, 0] ++ ([0, 0, 0, 0] ++
            ([0, 0, 0, 1] ++ ([7] ++ ([0, 0, 0] ++ []))))))) ∧
      Open (dimPadStream 255) = Open (dimPadStream 0) ∧
      readVarList (varAttrPadStream 9 9 9 8 8 8 7 7 7) =
        readVarList (varAttrPadStream 0 0 0 0 0 0 0 0 0) :=
  ⟨C10_padding_blind.1 [0, 0, 0, 1] [65] [9, 9, 9] [0, 0, 0] [5] (by decide) (by decide)
      (by decide) (by decide),
   C10_padding_blind.2.1 [0, 0, 0, 1] [97] [9, 9, 9] [0, 0, 0] [0, 0, 0, 0] [0, 0, 0, 1]
      [7] [9, 9, 9] [0, 0, 0] [] (by decide) (by decide) (by decide) (by decide)
      (by decide) (by decide) (by decide) (by decide) (by decide),
   C10_padding_blind.2.2.1 255 0,
   C10_padding_blind.2.2.2 9 9 9 8 8 8 7 7 7 0 0 0 0 0 0 0 0 0⟩

end gonc
